import Mathlib

/-!
Verification of libAKMtastic (src/libs/akmtastic/akmtastic.cpp).

Shallow embedding conventions:
* C++ `float` arithmetic is modelled over `ℝ` with the literal constants of
  the source (`0.8`, `0.05`, `720`), i.e. real arithmetic stands in for
  IEEE-754 single precision.
* The C++ `Vector` class (three floats) becomes the structure `Vec`.
* Mutating methods become state-passing functions: a method that mutates
  `this` returns the new object state, and a method mutating a by-reference
  argument returns the new value of that argument.
* `AccCalibrator::push` calls the base-class `Calibrator::push` (whose body
  is empty) under a trust condition.  To make that call observable the
  embedding `AccState.push` also returns the list of arguments passed to the
  base-class `Calibrator::push` during the call (empty or a singleton),
  mirroring the source's control flow exactly.
* C++ `int` becomes `ℤ`, `unsigned int` becomes `ℕ`, and the `bool`
  data member `oriCalculated`, which the `Akmtastic` constructor leaves
  uninitialized, is modelled by a constructor parameter giving its
  indeterminate initial value.
-/

open Classical

/-- The C++ `Vector` class: three floats, here three reals. -/
structure Vec where
  x : ℝ
  y : ℝ
  z : ℝ

/-- `Vector::Vector()` zero-initializes all three components. -/
def Vec.zero : Vec := ⟨0, 0, 0⟩

/-- `Vector::add`: componentwise sum. -/
def Vec.add (a m : Vec) : Vec := ⟨a.x + m.x, a.y + m.y, a.z + m.z⟩

/-- `Vector::multiply(const Vector&)`: componentwise product. -/
def Vec.mul (a m : Vec) : Vec := ⟨a.x * m.x, a.y * m.y, a.z * m.z⟩

/-- `Vector::multiply(float)`: scalar product. -/
def Vec.smul (a : Vec) (m : ℝ) : Vec := ⟨a.x * m, a.y * m, a.z * m⟩

/-- `Vector::divide(float)`: componentwise division by a scalar. -/
noncomputable def Vec.div (a : Vec) (d : ℝ) : Vec := ⟨a.x / d, a.y / d, a.z / d⟩

/-- `Vector::length`: Euclidean norm. -/
noncomputable def Vec.length (a : Vec) : ℝ :=
  Real.sqrt (a.x * a.x + a.y * a.y + a.z * a.z)

/-- `Vector::dot`: inner product. -/
def Vec.dot (a o : Vec) : ℝ := a.x * o.x + a.y * o.y + a.z * o.z

/-- `Average::push` returns its argument unchanged (the class has no state). -/
def Average.push (v : Vec) : Vec := v

/-- State of the base class `Calibrator`: the two correction vectors. -/
structure CalState where
  scale : Vec
  translation : Vec

/-- `Calibrator::Calibrator()` has an empty body, so `scale` and
`translation` get the `Vector` default constructor, i.e. all zeros. -/
def calInit : CalState := ⟨Vec.zero, Vec.zero⟩

/-- `Calibrator::push` has an empty body: the state is unchanged. -/
def CalState.push (s : CalState) (_val : Vec) : CalState := s

/-- `Calibrator::fix`: `val.add(translation); val.multiply(scale)`. -/
def CalState.fix (s : CalState) (val : Vec) : Vec :=
  (val.add s.translation).mul s.scale

/-- `Calibrator::reset` has an empty body: the state is unchanged. -/
def CalState.reset (s : CalState) : CalState := s

/-- `AccCalibrator::REFRESH = 10`. -/
def REFRESH : ℕ := 10

/-- `AccCalibrator::ERROR = 0.05f`. -/
def ERROR : ℝ := 0.05

/-- `AccCalibrator::GRAVITY_SMOOTH = 0.8f`. -/
def GRAVITY_SMOOTH : ℝ := 0.8

/-- State of `AccCalibrator`: the inherited `Calibrator` state plus the
smoothed gravity estimate `g`. -/
structure AccState where
  base : CalState
  g : Vec

/-- `AccCalibrator::AccCalibrator()`: `g` zero-initialized, base default. -/
def accInit : AccState := ⟨calInit, Vec.zero⟩

/-- The first two lines of `AccCalibrator::push`:
`g.multiply(GRAVITY_SMOOTH); g.add(Vector::multiply(val, 1.0f - GRAVITY_SMOOTH));` -/
def gUpd (g val : Vec) : Vec :=
  (g.smul GRAVITY_SMOOTH).add (val.smul (1 - GRAVITY_SMOOTH))

/-- `AccCalibrator::push`.  First the gravity estimate is updated, then
`al = val.length()`, `gl = g.length()`; if either is zero the method
returns; otherwise, when `fabsf(al - gl) < ERROR && an.dot(gn) > 1.0f - ERROR`
holds for the normalized vectors, `Calibrator::push(g)` is called.  The
second component records the arguments of that base-class call. -/
noncomputable def AccState.push (s : AccState) (val : Vec) : AccState × List Vec :=
  if val.length = 0 ∨ (gUpd s.g val).length = 0 then
    ({ base := s.base, g := gUpd s.g val }, [])
  else if |val.length - (gUpd s.g val).length| < ERROR ∧
      (val.div val.length).dot
        ((gUpd s.g val).div (gUpd s.g val).length) > 1 - ERROR then
    ({ base := s.base.push (gUpd s.g val), g := gUpd s.g val }, [gUpd s.g val])
  else
    ({ base := s.base, g := gUpd s.g val }, [])

/-- `AccCalibrator::fix` just calls `Calibrator::fix`. -/
def AccState.fix (s : AccState) (val : Vec) : Vec := s.base.fix val

/-- `AccCalibrator::reset`: `g.set(0,0,0); Calibrator::reset();`. -/
def AccState.reset (s : AccState) : AccState :=
  { base := s.base.reset, g := Vec.zero }

/-- State of `MagCalibrator`: only the inherited `Calibrator` state. -/
structure MagState where
  base : CalState

/-- `MagCalibrator::MagCalibrator()` leaves the base default-constructed. -/
def magInit : MagState := ⟨calInit⟩

/-- `MagCalibrator::push` has an empty body: the state is unchanged. -/
def MagState.push (s : MagState) (_val : Vec) : MagState := s

/-- `MagCalibrator::fix` has an empty body: it overrides the base method
and leaves `val` unchanged. -/
def MagState.fix (_s : MagState) (val : Vec) : Vec := val

/-- `MagCalibrator::reset` just calls `Calibrator::reset`. -/
def MagState.reset (s : MagState) : MagState := ⟨s.base.reset⟩

/-- State of the `Akmtastic` engine object. -/
structure Akm where
  accCal : AccState
  accVal : Vec
  magCal : MagState
  magVal : Vec
  oriVal : Vec
  oriCalculated : Bool
  started : Bool
  fd : ℤ

/-- The `Akmtastic` constructor: calibrators default-constructed, the
`Vector` members zero-initialized, `started(false)`, `fd(-1)`.  The member
`oriCalculated` is never initialized by the constructor; its indeterminate
initial value is the parameter `oriCalc0`. -/
def akmInit (oriCalc0 : Bool) : Akm :=
  { accCal := accInit, accVal := Vec.zero, magCal := magInit,
    magVal := Vec.zero, oriVal := Vec.zero, oriCalculated := oriCalc0,
    started := false, fd := -1 }

/-- `Akmtastic::start`: returns -1 when already started, otherwise sets
`started` and returns 0.  The `path` argument is unused by the source. -/
def Akm.start (s : Akm) (_path : String) : ℤ × Akm :=
  if s.started then (-1, s) else (0, { s with started := true })

/-- `Akmtastic::stop`: returns -1 when not started, otherwise clears
`started` and returns 0. -/
def Akm.stop (s : Akm) : ℤ × Akm :=
  if !s.started then (-1, s) else (0, { s with started := false })

/-- `Akmtastic::pushAcceleration`: builds `Vector(x, y, z)`, scales it by
`720.f / sensitivity`, passes it through the average, pushes it into the
accelerometer calibrator, applies the calibrator's `fix` to it, stores the
result in `accVal` and clears the orientation cache flag. -/
noncomputable def Akm.pushAcceleration (s : Akm) (x y z sensitivity : ℤ) : ℤ × Akm :=
  (0, { s with
    accCal := (s.accCal.push (Average.push
      (Vec.smul ⟨(x : ℝ), (y : ℝ), (z : ℝ)⟩ (720 / (sensitivity : ℝ))))).1,
    accVal := ((s.accCal.push (Average.push
      (Vec.smul ⟨(x : ℝ), (y : ℝ), (z : ℝ)⟩ (720 / (sensitivity : ℝ))))).1).fix
      (Average.push (Vec.smul ⟨(x : ℝ), (y : ℝ), (z : ℝ)⟩ (720 / (sensitivity : ℝ)))),
    oriCalculated := false })

/-- `Akmtastic::pushMagnetic`: builds `Vector(x, y, z)`, passes it through
the average, pushes it into the magnetometer calibrator, applies the
calibrator's `fix`, stores the result in `magVal` and clears the
orientation cache flag.  `status` and `period` appear nowhere in the body. -/
def Akm.pushMagnetic (s : Akm) (x y z _status _period : ℤ) : ℤ × Akm :=
  (0, { s with
    magCal := s.magCal.push (Average.push ⟨(x : ℝ), (y : ℝ), (z : ℝ)⟩),
    magVal := (s.magCal.push (Average.push ⟨(x : ℝ), (y : ℝ), (z : ℝ)⟩)).fix
      (Average.push ⟨(x : ℝ), (y : ℝ), (z : ℝ)⟩),
    oriCalculated := false })

/-- `Akmtastic::getOrientation`: when the cache flag is unset it is set
(the body of the `if` contains nothing else); the cached `oriVal` is
returned.  The function returns the post-call object state and the
returned vector. -/
def Akm.getOrientation (s : Akm) : Akm × Vec :=
  (if !s.oriCalculated then { s with oriCalculated := true } else s, s.oriVal)

/-- `Akmtastic::getMagnetic` returns the cached `magVal`. -/
def Akm.getMagnetic (s : Akm) : Vec := s.magVal

/-- `Akmtastic::getCalibrationGoodness` returns the constant 0. -/
def Akm.getCalibrationGoodness (_s : Akm) : ℕ := 0

/-- `Akmtastic::recalibrate` calls `accCalibrator.reset()` and nothing
else. -/
def Akm.recalibrate (s : Akm) : Akm :=
  { s with accCal := s.accCal.reset }

/-- `Akmtastic::changeFormFactor` returns 0 and changes nothing. -/
def Akm.changeFormFactor (s : Akm) (_formFactor : ℤ) : ℤ × Akm := (0, s)

/-- C1: each `AccCalibrator::push` with sample `val` first updates the
gravity estimate to `g*0.8 + val*0.2`; the only value ever passed to the
base-class accumulator push is that smoothed estimate (never the raw
sample), and it is passed exactly when both lengths are nonzero,
`| |val| - |g| | < 0.05` and the normalized dot product exceeds `0.95`. -/
theorem c1_acc_push_trust_gating (s : AccState) (val : Vec) :
    (AccState.push s val).1.g = (s.g.smul 0.8).add (val.smul 0.2) ∧
    ((AccState.push s val).2 = [] ∨
      (AccState.push s val).2 = [(s.g.smul 0.8).add (val.smul 0.2)]) ∧
    ((AccState.push s val).2 = [(s.g.smul 0.8).add (val.smul 0.2)] ↔
      val.length ≠ 0 ∧ ((s.g.smul 0.8).add (val.smul 0.2)).length ≠ 0 ∧
        |val.length - ((s.g.smul 0.8).add (val.smul 0.2)).length| < 0.05 ∧
        (val.div val.length).dot
          (((s.g.smul 0.8).add (val.smul 0.2)).div
            ((s.g.smul 0.8).add (val.smul 0.2)).length) > 0.95) := by
  have hG : gUpd s.g val = (s.g.smul 0.8).add (val.smul 0.2) := by
    unfold gUpd GRAVITY_SMOOTH
    norm_num
  have herr : ERROR = (0.05 : ℝ) := rfl
  have h95 : (1 : ℝ) - ERROR = 0.95 := by
    unfold ERROR
    norm_num
  refine ⟨?_, ?_, ?_⟩
  · unfold AccState.push
    split_ifs <;> simp [hG]
  · unfold AccState.push
    split_ifs <;> simp [hG]
  · rw [← hG, ← h95, ← herr]
    unfold AccState.push
    split_ifs with h1 h2
    · constructor
      · intro h
        simp at h
      · rintro ⟨ha, hb, -, -⟩
        rcases h1 with h | h
        · exact ha h
        · exact hb h
    · push_neg at h1
      simp [h1.1, h1.2, h2.1, h2.2]
    · constructor
      · intro h
        simp at h
      · rintro ⟨-, -, hc, hd⟩
        exact h2 ⟨hc, hd⟩

/-- C2: evaluation of the code at the failing input for the orientation
claim.  On a fresh engine, after `pushMagnetic(0, 1, 0, ..)` the cached
corrected magnetic vector is `(0, 1, 0)`, for which the claimed
tilt-compensated azimuth (level device: pitch = roll = 0) is
`atan2(1, 0) = 90` degrees, yet `getOrientation` returns the never-written
cache `oriVal = (0, 0, 0)`. -/
theorem c2_orientation_stub_zero :
    ((Akm.pushMagnetic (akmInit false) 0 1 0 0 0).2.getOrientation).2 =
      (⟨0, 0, 0⟩ : Vec) ∧
    (Akm.pushMagnetic (akmInit false) 0 1 0 0 0).2.magVal =
      (⟨0, 1, 0⟩ : Vec) := by
  constructor <;>
    simp [Akm.pushMagnetic, Akm.getOrientation, akmInit, MagState.push,
      MagState.fix, Average.push, magInit, Vec.zero]

/-- C3: evaluation of the code at the failing input for the identity
correction claim.  A freshly constructed `Calibrator` has
`scale = (0, 0, 0)` (the `Vector` default constructor zero-initializes,
nothing sets it to 1), so `fix` annihilates every vector instead of
returning it unchanged: `fix((1,2,3)) = (0,0,0) ≠ (1,2,3)`. -/
theorem c3_initial_scale_annihilates :
    calInit.scale = (⟨0, 0, 0⟩ : Vec) ∧
    CalState.fix calInit ⟨1, 2, 3⟩ = (⟨0, 0, 0⟩ : Vec) ∧
    CalState.fix calInit ⟨1, 2, 3⟩ ≠ (⟨1, 2, 3⟩ : Vec) := by
  refine ⟨rfl, ?_, ?_⟩
  · simp [CalState.fix, calInit, Vec.zero, Vec.add, Vec.mul]
  · simp [CalState.fix, calInit, Vec.zero, Vec.add, Vec.mul, Vec.mk.injEq]

/-- C4 counterexample: at the initial `MagCalibrator` state and input
`(1, 2, 3)`, `MagCalibrator::fix` does not compute
`(val + translation) * scale`: the override has an empty body and returns
`(1, 2, 3)`, while the formula gives `(0, 0, 0)`. -/
theorem c4_mag_fix_not_affine :
    MagState.fix magInit ⟨1, 2, 3⟩ ≠
      (Vec.add ⟨1, 2, 3⟩ magInit.base.translation).mul magInit.base.scale := by
  simp [MagState.fix, magInit, calInit, Vec.zero, Vec.add, Vec.mul,
    Vec.mk.injEq]

/-- C4 amended: `MagCalibrator::fix` is an empty override that leaves its
argument unchanged for every state and every vector. -/
theorem c4_mag_fix_is_noop (s : MagState) (v : Vec) :
    MagState.fix s v = v := rfl

/-- C5: `start` fails with -1 when already started and otherwise succeeds
and sets the `started` flag; `stop` fails with -1 when not started and
otherwise succeeds and clears the flag; in each failure case the whole
state (in particular `started`) is unchanged. -/
theorem c5_start_stop_guard (s : Akm) (path : String) :
    Akm.start s path =
      (if s.started then (-1, s) else (0, { s with started := true })) ∧
    Akm.stop s =
      (if s.started then (0, { s with started := false }) else (-1, s)) := by
  cases h : s.started <;> simp [Akm.start, Akm.stop, h]

/-- C6: `AccCalibrator::reset` zeroes the gravity estimate `g`, leaves the
inherited correction state (`translation`, `scale`) unchanged, and hence
`fix` computes the same value before and after the reset. -/
theorem c6_acc_reset_preserves_fix (s : AccState) (v : Vec) :
    (AccState.reset s).g = Vec.zero ∧
    (AccState.reset s).base = s.base ∧
    AccState.fix (AccState.reset s) v = AccState.fix s v :=
  ⟨rfl, rfl, rfl⟩

/-- C7: `Akmtastic::recalibrate` resets the accelerometer calibrator only;
the magnetometer calibrator's entire state is identical before and after,
and nothing else in the engine state changes. -/
theorem c7_recalibrate_mag_untouched (s : Akm) :
    Akm.recalibrate s = { s with accCal := AccState.reset s.accCal } ∧
    (Akm.recalibrate s).magCal = s.magCal :=
  ⟨rfl, rfl⟩

/-- C8: two `pushMagnetic` calls with the same `(x, y, z)` but arbitrary
`status` and `period` arguments produce identical return values and
identical engine states, hence identical results from every subsequent
getter. -/
theorem c8_push_magnetic_noninterference (s : Akm) (x y z st1 p1 st2 p2 : ℤ) :
    Akm.pushMagnetic s x y z st1 p1 = Akm.pushMagnetic s x y z st2 p2 ∧
    ((Akm.pushMagnetic s x y z st1 p1).2.getMagnetic =
      (Akm.pushMagnetic s x y z st2 p2).2.getMagnetic) ∧
    ((Akm.pushMagnetic s x y z st1 p1).2.getOrientation =
      (Akm.pushMagnetic s x y z st2 p2).2.getOrientation) :=
  ⟨rfl, rfl, rfl⟩

/-- C9: `getCalibrationGoodness` returns 0 on every engine state, so in
particular on every reachable one. -/
theorem c9_goodness_always_zero (s : Akm) :
    Akm.getCalibrationGoodness s = 0 := rfl

/-- C10: the `Average` smoothing filter is the identity, and consequently
inside `pushAcceleration` the accelerometer calibrator receives exactly
the raw unit-converted sample `(x, y, z) * (720 / sensitivity)`. -/
theorem c10_average_identity (v : Vec) (s : Akm) (x y z sens : ℤ) :
    Average.push v = v ∧
    (Akm.pushAcceleration s x y z sens).2.accCal =
      (AccState.push s.accCal
        (Vec.smul ⟨(x : ℝ), (y : ℝ), (z : ℝ)⟩ (720 / (sens : ℝ)))).1 :=
  ⟨rfl, rfl⟩
